import Mathlib

set_option linter.unusedVariables false

/-!
Shallow embedding of the Risk Analytics Engine of `app/services/risk.py`
(class `RiskService`).

Modelling conventions:
* Python numbers (ints and floats flowing through the arithmetic) are
  modelled as rationals `ℚ`; contract counts (`quantity`) are `Int`
  coerced into `ℚ` where the source multiplies them with prices.
* `datetime` values are modelled at day granularity as `Int` (days since
  an arbitrary epoch), so Python's `(expiration_date - today).days`
  becomes integer subtraction.  `datetime.now()` is an explicit `now`
  parameter: the source reads the wall clock, the embedding makes that
  input visible.
* A Python `dict` built up by `d[k] += v` with insertion order is an
  association list `List (String × ℚ)` updated by `dictAdd`; the
  fixed-key dicts (`expiration_groups`, `risk_levels`) are structures
  with one field per key.
* Python division raises `ZeroDivisionError` when the denominator is 0.
  Everywhere the source guards the division, the embedding is a total
  function; in `_calculate_sector_exposure` the source divides
  unguarded inside the loop, so that function returns
  `Except String _` and errs exactly when Python would raise.
-/

/-- `Position` record as consumed by the engine (read-only input).
`sector` is optional; absent is `none`. -/
structure Position where
  id : String
  symbol : String
  strategy : String
  quantity : Int
  entry_price : ℚ
  strike_price : ℚ
  premium_received : ℚ
  entry_date : Int
  expiration_date : Int
  is_open : Bool
  sector : Option String
deriving DecidableEq, Repr

/-- `abs(max_profit / max_loss) if max_loss != 0 else float('inf')`:
the ratio is either a finite rational or positive infinity. -/
inductive RiskReward where
  | finite (q : ℚ)
  | posInf
deriving DecidableEq, Repr

structure Greeks where
  delta : ℚ
  gamma : ℚ
  theta : ℚ
  vega : ℚ
deriving DecidableEq, Repr

structure Probabilities where
  profit : ℚ
  assignment : ℚ
deriving DecidableEq, Repr

/-- Result record of `get_position_risk` (the found-position branch). -/
structure PositionRiskReport where
  position_id : String
  symbol : String
  strategy : String
  risk_level : String
  greeks : Greeks
  max_profit : ℚ
  max_loss : ℚ
  risk_reward_ratio : RiskReward
  probabilities : Probabilities
  days_to_expiration : Int
deriving DecidableEq, Repr

/-- The fixed four-key dict `expiration_groups` of
`_calculate_expiration_distribution`. -/
structure ExpirationGroups where
  lt7 : ℚ
  d7to14 : ℚ
  d15to30 : ℚ
  gt30 : ℚ
deriving DecidableEq, Repr

/-- The fixed four-key dict `risk_levels` of `_calculate_risk_distribution`. -/
structure RiskLevels where
  low : ℚ
  medium : ℚ
  high : ℚ
  extreme : ℚ
deriving DecidableEq, Repr

/-- Result record of `get_portfolio_risk`. -/
structure PortfolioRiskReport where
  totalRisk : ℚ
  maxLoss : ℚ
  diversification : ℚ
  risk_distribution : RiskLevels
  sectorExposure : List (String × ℚ)
  riskByStrategy : List (String × ℚ)
  riskByExpiration : ExpirationGroups
deriving DecidableEq, Repr

/-- Python `if k not in d: d[k] = 0` followed by `d[k] += v` on an
insertion-ordered dict. -/
def dictAdd (d : List (String × ℚ)) (k : String) (v : ℚ) : List (String × ℚ) :=
  match d with
  | [] => [(k, v)]
  | (k', v') :: rest => if k' = k then (k', v' + v) :: rest else (k', v') :: dictAdd rest k v

/-- Lookup with default 0, as reading a percentage out of the dict. -/
def dictGet (d : List (String × ℚ)) (k : String) : ℚ :=
  match d with
  | [] => 0
  | (k', v') :: rest => if k' = k then v' else dictGet rest k

def _calculate_delta (position : Position) : ℚ := 1/2

def _calculate_gamma (position : Position) : ℚ := 1/20

def _calculate_theta (position : Position) : ℚ := -1/10

def _calculate_vega (position : Position) : ℚ := 1/5

def _calculate_max_profit (position : Position) : ℚ :=
  if position.strategy = "covered_call" then position.premium_received
  else if position.strategy = "cash_secured_put" then position.premium_received
  else 0

def _calculate_max_loss (position : Position) : ℚ :=
  if position.strategy = "covered_call" then
    position.entry_price * (position.quantity : ℚ) - position.premium_received
  else if position.strategy = "cash_secured_put" then
    position.strike_price * (position.quantity : ℚ) * 100 - position.premium_received
  else 0

def _determine_risk_level (position : Position) : String := "medium"

def _calculate_probability_profit (position : Position) : ℚ := 13/20

def _calculate_probability_assignment (position : Position) : ℚ := 3/20

/-- `get_position_risk`, the branch where the position was found;
`now` is the value of `datetime.now()` at call time (day granularity). -/
def get_position_risk (now : Int) (position : Position) : PositionRiskReport :=
  let delta := _calculate_delta position
  let gamma := _calculate_gamma position
  let theta := _calculate_theta position
  let vega := _calculate_vega position
  let max_profit := _calculate_max_profit position
  let max_loss := _calculate_max_loss position
  let probability_profit := _calculate_probability_profit position
  let probability_assignment := _calculate_probability_assignment position
  { position_id := position.id
    symbol := position.symbol
    strategy := position.strategy
    risk_level := _determine_risk_level position
    greeks := ⟨delta, gamma, theta, vega⟩
    max_profit := max_profit
    max_loss := max_loss
    risk_reward_ratio :=
      if max_loss ≠ 0 then RiskReward.finite (abs (max_profit / max_loss)) else RiskReward.posInf
    probabilities := ⟨probability_profit, probability_assignment⟩
    days_to_expiration := position.expiration_date - now }

/-- The loop body of `_calculate_sector_exposure`: the division
`(entry_price*quantity) / total_value` runs on every iteration and
raises when `total_value = 0`. -/
def sectorLoop (total_value : ℚ) : List Position → List (String × ℚ) →
    Except String (List (String × ℚ))
  | [], sectors => Except.ok sectors
  | position :: rest, sectors =>
    if total_value = 0 then Except.error "ZeroDivisionError"
    else
      let sector := position.sector.getD "Other"
      sectorLoop total_value rest
        (dictAdd sectors sector (position.entry_price * (position.quantity : ℚ) / total_value * 100))

def _calculate_sector_exposure (positions : List Position) :
    Except String (List (String × ℚ)) :=
  let total_value := (positions.map (fun p => p.entry_price * (p.quantity : ℚ))).sum
  sectorLoop total_value positions []

def _calculate_strategy_distribution (positions : List Position) : List (String × ℚ) :=
  let total_risk := (positions.map _calculate_max_loss).sum
  positions.foldl
    (fun strategies position =>
      dictAdd strategies position.strategy
        (if total_risk ≠ 0 then _calculate_max_loss position / total_risk * 100 else 0))
    []

/-- The bucketing cascade of `_calculate_expiration_distribution`'s loop. -/
def bucketAdd (groups : ExpirationGroups) (days_to_expiration : Int) (v : ℚ) :
    ExpirationGroups :=
  if days_to_expiration < 7 then { groups with lt7 := groups.lt7 + v }
  else if days_to_expiration < 14 then { groups with d7to14 := groups.d7to14 + v }
  else if days_to_expiration ≤ 30 then { groups with d15to30 := groups.d15to30 + v }
  else { groups with gt30 := groups.gt30 + v }

def _calculate_expiration_distribution (now : Int) (positions : List Position) :
    ExpirationGroups :=
  let total_risk := (positions.map _calculate_max_loss).sum
  let groups := positions.foldl
    (fun groups position =>
      bucketAdd groups (position.expiration_date - now) (_calculate_max_loss position))
    ⟨0, 0, 0, 0⟩
  if total_risk > 0 then
    { lt7 := groups.lt7 / total_risk * 100
      d7to14 := groups.d7to14 / total_risk * 100
      d15to30 := groups.d15to30 / total_risk * 100
      gt30 := groups.gt30 / total_risk * 100 }
  else groups

def _calculate_portfolio_max_loss (positions : List Position) : ℚ :=
  (positions.map _calculate_max_loss).sum * (8/10)

def _calculate_diversification_score (positions : List Position) : ℚ :=
  let sectors := (positions.filterMap Position.sector).dedup
  let num_sectors : ℚ := sectors.length
  min (num_sectors / 10) 1

/-- The counting loop of `_calculate_risk_distribution`.  The source's
`risk_levels[risk_level] += 1` only ever runs at the four fixed keys
because `_determine_risk_level` is total onto them. -/
def riskCountAdd (risk_levels : RiskLevels) (level : String) : RiskLevels :=
  if level = "low" then { risk_levels with low := risk_levels.low + 1 }
  else if level = "medium" then { risk_levels with medium := risk_levels.medium + 1 }
  else if level = "high" then { risk_levels with high := risk_levels.high + 1 }
  else { risk_levels with extreme := risk_levels.extreme + 1 }

def _calculate_risk_distribution (positions : List Position) : RiskLevels :=
  let counts := positions.foldl
    (fun risk_levels position => riskCountAdd risk_levels (_determine_risk_level position))
    ⟨0, 0, 0, 0⟩
  let total : ℚ := positions.length
  if total > 0 then
    { low := counts.low / total * 100
      medium := counts.medium / total * 100
      high := counts.high / total * 100
      extreme := counts.extreme / total * 100 }
  else counts

/-- `get_portfolio_risk`: the source queries the open positions; here the
caller passes the full snapshot and the `is_open` filter is applied.
The whole call raises whenever `_calculate_sector_exposure` raises. -/
def get_portfolio_risk (now : Int) (all_positions : List Position) :
    Except String PortfolioRiskReport :=
  let positions := all_positions.filter (fun p => p.is_open)
  match _calculate_sector_exposure positions with
  | Except.error e => Except.error e
  | Except.ok sector_exposure =>
    let strategy_distribution := _calculate_strategy_distribution positions
    let expiration_distribution := _calculate_expiration_distribution now positions
    let total_risk := (positions.map _calculate_max_loss).sum
    Except.ok
      { totalRisk := total_risk
        maxLoss := _calculate_portfolio_max_loss positions
        diversification := _calculate_diversification_score positions
        risk_distribution := _calculate_risk_distribution positions
        sectorExposure := sector_exposure
        riskByStrategy := strategy_distribution
        riskByExpiration := expiration_distribution }

/-- Sum of the four bucket fields of the expiration dict. -/
def eSum (groups : ExpirationGroups) : ℚ :=
  groups.lt7 + groups.d7to14 + groups.d15to30 + groups.gt30

/-- The dict built by the loop of `_calculate_sector_exposure` on the
non-raising path (`total_value ≠ 0`). -/
def sectorDict (total_value : ℚ) (positions : List Position)
    (acc : List (String × ℚ)) : List (String × ℚ) :=
  positions.foldl
    (fun sectors position =>
      dictAdd sectors (position.sector.getD "Other")
        (position.entry_price * (position.quantity : ℚ) / total_value * 100))
    acc

/-- A covered call: `entry_price=100`, `quantity=10`, `premium_received=200`,
sector `"Tech"` (the worked example of the spec, §8.8). -/
def pCC : Position :=
  ⟨"P1", "AAPL", "covered_call", 10, 100, 105, 200, 0, 10, true, some "Tech"⟩

/-- A cash-secured put: `strike_price=50`, `quantity=2`, `premium_received=150`. -/
def pCSP : Position :=
  ⟨"P2", "MSFT", "cash_secured_put", 2, 0, 50, 150, 0, 20, true, some "Tech"⟩

/-- A covered call whose max loss is exactly 0
(`entry_price*quantity = premium_received = 200`). -/
def pZeroLoss : Position :=
  ⟨"P3", "AAPL", "covered_call", 1, 200, 210, 200, 0, 10, true, none⟩

/-- An open position with zero notional (`entry_price = 0`). -/
def pZeroNotional : Position :=
  ⟨"P4", "AAPL", "covered_call", 1, 0, 100, 0, 0, 10, true, some "Tech"⟩

/-- An open covered call with negative max loss:
`entry_price*quantity = 1 < 100 = premium_received`. -/
def pNeg : Position :=
  ⟨"P5", "AAPL", "covered_call", 1, 1, 100, 100, 0, 10, true, some "Tech"⟩

/-- Expected `get_portfolio_risk` output on `[pNeg]` at `now = 0`. -/
def rNeg : PortfolioRiskReport :=
  { totalRisk := -99
    maxLoss := -396/5
    diversification := 1/10
    risk_distribution := ⟨0, 100, 0, 0⟩
    sectorExposure := [("Tech", 100)]
    riskByStrategy := [("covered_call", 100)]
    riskByExpiration := ⟨0, -99, 0, 0⟩ }

/-- Expected `get_portfolio_risk` output on `[pCC]` at `now = 0` (the worked
example of the spec, §8.8). -/
def rCC : PortfolioRiskReport :=
  { totalRisk := 800
    maxLoss := 640
    diversification := 1/10
    risk_distribution := ⟨0, 100, 0, 0⟩
    sectorExposure := [("Tech", 100)]
    riskByStrategy := [("covered_call", 100)]
    riskByExpiration := ⟨0, 100, 0, 0⟩ }

/-- A position carrying a given sector tag. -/
def sectorPos (s : Option String) : Position :=
  ⟨"P", "SPY", "covered_call", 1, 10, 10, 1, 0, 10, true, s⟩

/-- Five positions spanning exactly 3 distinct sectors (one duplicate,
one absent). -/
def ps3 : List Position :=
  [sectorPos (some "Tech"), sectorPos (some "Energy"), sectorPos (some "Health"),
   sectorPos (some "Tech"), sectorPos none]

/-- Twelve positions spanning 12 distinct sectors. -/
def ps12 : List Position :=
  ["S01", "S02", "S03", "S04", "S05", "S06", "S07", "S08", "S09", "S10", "S11",
   "S12"].map (fun s => sectorPos (some s))

theorem dictAdd_snd_sum (d : List (String × ℚ)) (k : String) (v : ℚ) :
    ((dictAdd d k v).map Prod.snd).sum = (d.map Prod.snd).sum + v := by
  induction d with
  | nil => simp [dictAdd]
  | cons hd tl ih =>
    obtain ⟨k', v'⟩ := hd
    by_cases h : k' = k <;> simp [dictAdd, h, ih] <;> ring

theorem dictGet_dictAdd (d : List (String × ℚ)) (k : String) (v : ℚ) (j : String) :
    dictGet (dictAdd d k v) j = dictGet d j + (if k = j then v else 0) := by
  induction d with
  | nil =>
    simp only [dictAdd, dictGet]
    split_ifs <;> simp
  | cons hd tl ih =>
    obtain ⟨k', v'⟩ := hd
    by_cases h1 : k' = k
    · subst h1
      by_cases h2 : k' = j
      · subst h2; simp [dictAdd, dictGet]
      · simp [dictAdd, dictGet, h2]
    · by_cases h2 : k' = j
      · subst h2
        have h1' : ¬ k = k' := fun h => h1 h.symm
        simp [dictAdd, dictGet, h1, h1']
      · simp [dictAdd, dictGet, h1, h2, ih]

theorem sectorLoop_ok (t : ℚ) (ht : t ≠ 0) (ps : List Position) :
    ∀ acc, sectorLoop t ps acc = Except.ok (sectorDict t ps acc) := by
  induction ps with
  | nil => intro acc; rfl
  | cons p tl ih =>
    intro acc
    simp only [sectorLoop, sectorDict, List.foldl_cons, if_neg ht]
    exact ih _

theorem sectorDict_snd_sum (t : ℚ) (ps : List Position) :
    ∀ acc, ((sectorDict t ps acc).map Prod.snd).sum =
      (acc.map Prod.snd).sum +
      (ps.map (fun p => p.entry_price * (p.quantity : ℚ) / t * 100)).sum := by
  induction ps with
  | nil => intro acc; simp [sectorDict]
  | cons p tl ih =>
    intro acc
    simp only [sectorDict, List.foldl_cons, List.map_cons, List.sum_cons] at ih ⊢
    rw [ih, dictAdd_snd_sum]
    ring

theorem sectorDict_get (t : ℚ) (ps : List Position) (j : String) :
    ∀ acc, dictGet (sectorDict t ps acc) j =
      dictGet acc j +
      ((ps.filter (fun p => p.sector.getD "Other" = j)).map
        (fun p => p.entry_price * (p.quantity : ℚ) / t * 100)).sum := by
  induction ps with
  | nil => intro acc; simp [sectorDict]
  | cons p tl ih =>
    intro acc
    simp only [sectorDict, List.foldl_cons] at ih ⊢
    rw [ih, dictGet_dictAdd]
    by_cases h : p.sector.getD "Other" = j
    · simp [List.filter_cons, h]
      ring
    · simp [List.filter_cons, h]

theorem sum_map_div_mul_const (f : Position → ℚ) (t : ℚ) (ps : List Position) :
    (ps.map (fun p => f p / t * 100)).sum = (ps.map f).sum / t * 100 := by
  induction ps with
  | nil => simp
  | cons p tl ih =>
    simp only [List.map_cons, List.sum_cons, ih]
    ring

theorem eSum_bucketAdd (g : ExpirationGroups) (d : Int) (v : ℚ) :
    eSum (bucketAdd g d v) = eSum g + v := by
  simp only [bucketAdd, eSum]
  split_ifs <;> dsimp <;> ring

theorem eSum_foldl (now : Int) (ps : List Position) :
    ∀ init : ExpirationGroups,
      eSum (ps.foldl
        (fun groups position =>
          bucketAdd groups (position.expiration_date - now) (_calculate_max_loss position))
        init) = eSum init + (ps.map _calculate_max_loss).sum := by
  induction ps with
  | nil => intro init; simp
  | cons p tl ih =>
    intro init
    simp only [List.foldl_cons, List.map_cons, List.sum_cons]
    rw [ih, eSum_bucketAdd]
    ring

theorem riskCounts_foldl (ps : List Position) :
    ∀ init : RiskLevels,
      ps.foldl (fun risk_levels position => riskCountAdd risk_levels (_determine_risk_level position)) init
        = { init with medium := init.medium + (ps.length : ℚ) } := by
  induction ps with
  | nil => intro init; simp
  | cons p tl ih =>
    intro init
    have hstep : riskCountAdd init (_determine_risk_level p)
        = { init with medium := init.medium + 1 } := by
      simp [riskCountAdd, _determine_risk_level]
    rw [List.foldl_cons, hstep, ih]
    simp only [RiskLevels.mk.injEq, List.length_cons, true_and, and_true]
    push_cast
    ring

/-- C1: for a `covered_call` position, `position_risk` reports
`max_profit = premium_received` and
`max_loss = entry_price * quantity - premium_received`; for a
`cash_secured_put` position it reports `max_profit = premium_received`
and `max_loss = strike_price * quantity * 100 - premium_received`. -/
theorem C1_max_profit_max_loss (now : Int) (p : Position) :
    (p.strategy = "covered_call" →
      (get_position_risk now p).max_profit = p.premium_received ∧
      (get_position_risk now p).max_loss =
        p.entry_price * (p.quantity : ℚ) - p.premium_received) ∧
    (p.strategy = "cash_secured_put" →
      (get_position_risk now p).max_profit = p.premium_received ∧
      (get_position_risk now p).max_loss =
        p.strike_price * (p.quantity : ℚ) * 100 - p.premium_received) := by
  constructor
  · intro h
    constructor <;>
      simp [get_position_risk, _calculate_max_profit, _calculate_max_loss, h]
  · intro h
    constructor <;>
      simp [get_position_risk, _calculate_max_profit, _calculate_max_loss, h]

/-- Witness for C1 at a concrete covered call and a concrete cash-secured put. -/
theorem C1_max_profit_max_loss_witness :
    ((get_position_risk 0 pCC).max_profit = pCC.premium_received ∧
      (get_position_risk 0 pCC).max_loss =
        pCC.entry_price * (pCC.quantity : ℚ) - pCC.premium_received) ∧
    ((get_position_risk 0 pCSP).max_profit = pCSP.premium_received ∧
      (get_position_risk 0 pCSP).max_loss =
        pCSP.strike_price * (pCSP.quantity : ℚ) * 100 - pCSP.premium_received) :=
  ⟨(C1_max_profit_max_loss 0 pCC).1 rfl, (C1_max_profit_max_loss 0 pCSP).2 rfl⟩

/-- C4: `risk_reward_ratio` is positive infinity when `max_loss = 0`, and
otherwise equals `abs (max_profit / max_loss)`; the zero-`max_loss` case is a
representable value, not an error. -/
theorem C4_risk_reward_ratio (now : Int) (p : Position) :
    ((get_position_risk now p).max_loss = 0 →
      (get_position_risk now p).risk_reward_ratio = RiskReward.posInf) ∧
    ((get_position_risk now p).max_loss ≠ 0 →
      (get_position_risk now p).risk_reward_ratio =
        RiskReward.finite
          (abs ((get_position_risk now p).max_profit /
            (get_position_risk now p).max_loss))) := by
  have hml : (get_position_risk now p).max_loss = _calculate_max_loss p := rfl
  constructor
  · intro h
    rw [hml] at h
    simp [get_position_risk, h]
  · intro h
    rw [hml] at h
    simp [get_position_risk, h]

/-- Witness for C4: a position with `max_loss = 0` yields infinity, and
one with `max_loss ≠ 0` yields the finite absolute ratio. -/
theorem C4_risk_reward_ratio_witness :
    (get_position_risk 0 pZeroLoss).risk_reward_ratio = RiskReward.posInf ∧
    (get_position_risk 0 pCC).risk_reward_ratio =
      RiskReward.finite
        (abs ((get_position_risk 0 pCC).max_profit / (get_position_risk 0 pCC).max_loss)) :=
  ⟨(C4_risk_reward_ratio 0 pZeroLoss).1
      (by norm_num [get_position_risk, _calculate_max_loss, pZeroLoss]),
   (C4_risk_reward_ratio 0 pCC).2
      (by norm_num [get_position_risk, _calculate_max_loss, pCC])⟩

/-- C9 counterexample: the source reads `datetime.now()`, so two calls on the
very same position snapshot return different reports when the clock has
moved (`days_to_expiration` differs): the outputs are not a function of the
snapshot alone. -/
theorem C9_counterexample : get_position_risk 0 pNeg ≠ get_position_risk 5 pNeg := by
  intro h
  have h10 : (get_position_risk 0 pNeg).days_to_expiration = 10 := rfl
  have h5 : (get_position_risk 5 pNeg).days_to_expiration = 5 := rfl
  rw [h, h5] at h10
  exact absurd h10 (by decide)

/-- C9 amended: `position_risk` and `portfolio_risk` are deterministic in the
snapshot together with the evaluation time: calls with equal inputs and equal
current time return equal outputs, and the input positions are never mutated
(both are modelled as pure functions of their arguments). -/
theorem C9_deterministic (now now' : Int) (p p' : Position)
    (ps ps' : List Position) (h1 : now = now') (h2 : p = p') (h3 : ps = ps') :
    get_position_risk now p = get_position_risk now' p' ∧
    get_portfolio_risk now ps = get_portfolio_risk now' ps' := by
  subst h1; subst h2; subst h3
  exact ⟨rfl, rfl⟩

/-- Witness for C9 amended, at a concrete time and snapshot. -/
theorem C9_deterministic_witness :
    get_position_risk 0 pCC = get_position_risk 0 pCC ∧
    get_portfolio_risk 0 [pCC] = get_portfolio_risk 0 [pCC] :=
  C9_deterministic 0 0 pCC pCC [pCC] [pCC] rfl rfl rfl

/-- C10: `_determine_risk_level` returns `"medium"` for every position, so for
every non-empty collection `risk_distribution` is 100 percent `"medium"` and
0 percent `"low"`, `"high"` and `"extreme"`. -/
theorem C10_risk_distribution_all_medium :
    (∀ (now : Int) (p : Position), (get_position_risk now p).risk_level = "medium") ∧
    (∀ positions : List Position, positions ≠ [] →
      _calculate_risk_distribution positions = ⟨0, 100, 0, 0⟩) := by
  refine ⟨fun now p => rfl, fun ps hps => ?_⟩
  have hn : (0 : ℚ) < (ps.length : ℚ) := by
    exact_mod_cast List.length_pos.mpr hps
  have hn0 : ((ps.length : ℚ)) ≠ 0 := ne_of_gt hn
  simp only [_calculate_risk_distribution, riskCounts_foldl]
  rw [if_pos hn]
  simp only [RiskLevels.mk.injEq]
  refine ⟨by simp, ?_, by simp, by simp⟩
  rw [zero_add, div_self hn0, one_mul]

/-- Witness for C10 on a concrete non-empty collection. -/
theorem C10_risk_distribution_all_medium_witness :
    _calculate_risk_distribution [pCC, pCSP] = ⟨0, 100, 0, 0⟩ :=
  C10_risk_distribution_all_medium.2 [pCC, pCSP] (by simp)

/-- C8: `diversification_score` is `min (n / 10) 1` where `n` counts the
distinct non-absent sector values; 3 distinct sectors give `3/10`, 12 distinct
sectors saturate at 1. -/
theorem C8_diversification_score :
    (∀ positions : List Position,
      _calculate_diversification_score positions =
        min ((((positions.filterMap Position.sector).dedup).length : ℚ) / 10) 1) ∧
    _calculate_diversification_score ps3 = 3/10 ∧
    _calculate_diversification_score ps12 = 1 := by
  refine ⟨fun ps => rfl, ?_, ?_⟩
  · simp only [_calculate_diversification_score]
    rw [show ((ps3.filterMap Position.sector).dedup).length = 3 from by decide]
    norm_num [min_def]
  · simp only [_calculate_diversification_score]
    rw [show ((ps12.filterMap Position.sector).dedup).length = 12 from by decide]
    norm_num [min_def]

/-- C2 (code-bug evidence): on the empty collection `sector_exposure` is the
empty mapping, but on a non-empty collection whose total notional is 0 the
loop divides by the zero total and the computation raises a
`ZeroDivisionError` instead of returning the empty mapping. -/
theorem C2_zero_total_divides :
    _calculate_sector_exposure [] = Except.ok [] ∧
    get_portfolio_risk 0 [pZeroNotional] = Except.error "ZeroDivisionError" := by
  constructor
  · rfl
  · norm_num [get_portfolio_risk, _calculate_sector_exposure, sectorLoop, pZeroNotional]

/-- C5: on the empty collection `portfolio_risk` succeeds (no division fault)
with `total_risk = 0`, empty `sector_exposure`, a `strategy_distribution`
summing to 0, and `diversification_score = 0`. -/
theorem C5_empty_portfolio (now : Int) :
    ∃ r, get_portfolio_risk now [] = Except.ok r ∧
      r.totalRisk = 0 ∧
      r.sectorExposure = [] ∧
      ((r.riskByStrategy.map Prod.snd).sum = 0) ∧
      r.diversification = 0 := by
  refine ⟨{ totalRisk := 0, maxLoss := 0, diversification := 0,
            risk_distribution := ⟨0, 0, 0, 0⟩, sectorExposure := [],
            riskByStrategy := [], riskByExpiration := ⟨0, 0, 0, 0⟩ },
          ?_, rfl, rfl, by simp, rfl⟩
  norm_num [get_portfolio_risk, _calculate_sector_exposure, sectorLoop,
    _calculate_strategy_distribution, _calculate_expiration_distribution,
    _calculate_portfolio_max_loss, _calculate_diversification_score,
    _calculate_risk_distribution, min_def]

/-- C6 counterexample: on a single covered call whose premium exceeds its
cost basis (`entry_price*quantity = 1`, `premium_received = 100`) the total
risk is negative, and the reported portfolio max loss
(`total_risk * 0.8 = -396/5`) is strictly greater than `total_risk = -99`,
refuting `portfolio_max_loss ≤ total_risk` as a universal claim. -/
theorem C6_counterexample :
    get_portfolio_risk 0 [pNeg] = Except.ok rNeg ∧
    rNeg.totalRisk = -99 ∧ rNeg.maxLoss = rNeg.totalRisk * (8/10) ∧
    ¬ rNeg.maxLoss ≤ rNeg.totalRisk := by
  refine ⟨?_, rfl, by norm_num [rNeg], by norm_num [rNeg]⟩
  have hfil : ([pNeg] : List Position).filter (fun p => p.is_open) = [pNeg] := rfl
  have hsec : _calculate_sector_exposure [pNeg] = Except.ok [("Tech", 100)] := by
    norm_num [_calculate_sector_exposure, sectorLoop, dictAdd, pNeg]
  have hstrat : _calculate_strategy_distribution [pNeg] = [("covered_call", 100)] := by
    norm_num [_calculate_strategy_distribution, dictAdd, _calculate_max_loss, pNeg]
  have hexp : _calculate_expiration_distribution 0 [pNeg] = ⟨0, -99, 0, 0⟩ := by
    norm_num [_calculate_expiration_distribution, bucketAdd, _calculate_max_loss, pNeg]
  have hpml : _calculate_portfolio_max_loss [pNeg] = -396/5 := by
    norm_num [_calculate_portfolio_max_loss, _calculate_max_loss, pNeg]
  have hdiv : _calculate_diversification_score [pNeg] = 1/10 := by
    simp only [_calculate_diversification_score]
    rw [show ((([pNeg] : List Position).filterMap Position.sector).dedup).length = 1
      from by decide]
    norm_num [min_def]
  have hrisk : _calculate_risk_distribution [pNeg] = ⟨0, 100, 0, 0⟩ := by
    simp [_calculate_risk_distribution, riskCountAdd, _determine_risk_level]
  have htot : (([pNeg] : List Position).map _calculate_max_loss).sum = -99 := by
    norm_num [_calculate_max_loss, pNeg]
  simp only [get_portfolio_risk, hfil, hsec, hstrat, hexp, hpml, hdiv, hrisk, htot, rNeg]

/-- C6 amended: `portfolio_risk` always reports
`portfolio_max_loss = total_risk * 0.8`, and whenever `total_risk` is
non-negative this value is at most `total_risk`. -/
theorem C6_portfolio_max_loss (now : Int) (ps : List Position)
    (r : PortfolioRiskReport) (h : get_portfolio_risk now ps = Except.ok r) :
    r.maxLoss = r.totalRisk * (8/10) ∧
    (0 ≤ r.totalRisk → r.maxLoss ≤ r.totalRisk) := by
  simp only [get_portfolio_risk] at h
  rcases hse : _calculate_sector_exposure (ps.filter (fun p => p.is_open)) with e | d
  · rw [hse] at h
    exact absurd h (by simp)
  · rw [hse] at h
    simp only [Except.ok.injEq] at h
    subst h
    constructor
    · rfl
    · intro h0
      show ((ps.filter (fun p => p.is_open)).map _calculate_max_loss).sum * (8/10) ≤ _
      linarith [h0]

theorem portfolio_risk_pCC : get_portfolio_risk 0 [pCC] = Except.ok rCC := by
  have hfil : ([pCC] : List Position).filter (fun p => p.is_open) = [pCC] := rfl
  have hsec : _calculate_sector_exposure [pCC] = Except.ok [("Tech", 100)] := by
    norm_num [_calculate_sector_exposure, sectorLoop, dictAdd, pCC]
  have hstrat : _calculate_strategy_distribution [pCC] = [("covered_call", 100)] := by
    norm_num [_calculate_strategy_distribution, dictAdd, _calculate_max_loss, pCC]
  have hexp : _calculate_expiration_distribution 0 [pCC] = ⟨0, 100, 0, 0⟩ := by
    norm_num [_calculate_expiration_distribution, bucketAdd, _calculate_max_loss, pCC]
  have hpml : _calculate_portfolio_max_loss [pCC] = 640 := by
    norm_num [_calculate_portfolio_max_loss, _calculate_max_loss, pCC]
  have hdiv : _calculate_diversification_score [pCC] = 1/10 := by
    simp only [_calculate_diversification_score]
    rw [show ((([pCC] : List Position).filterMap Position.sector).dedup).length = 1
      from by decide]
    norm_num [min_def]
  have hrisk : _calculate_risk_distribution [pCC] = ⟨0, 100, 0, 0⟩ := by
    simp [_calculate_risk_distribution, riskCountAdd, _determine_risk_level]
  have htot : (([pCC] : List Position).map _calculate_max_loss).sum = 800 := by
    norm_num [_calculate_max_loss, pCC]
  simp only [get_portfolio_risk, hfil, hsec, hstrat, hexp, hpml, hdiv, hrisk, htot, rCC]

/-- Witness for C6 amended, on the spec's worked single-covered-call
portfolio, whose total risk 800 is non-negative. -/
theorem C6_portfolio_max_loss_witness :
    rCC.maxLoss = rCC.totalRisk * (8/10) ∧
    (0 ≤ rCC.totalRisk → rCC.maxLoss ≤ rCC.totalRisk) :=
  C6_portfolio_max_loss 0 [pCC] rCC portfolio_risk_pCC

/-- C3: the expiration loop assigns a position's max loss to exactly one
bucket — days 6 only to `< 7 days`, 7 only to `7-14 days`, 14 only to
`15-30 days`, 31 only to `> 30 days` — and when the total risk is positive
the four bucket percentages sum to 100. -/
theorem C3_expiration_distribution :
    (∀ (g : ExpirationGroups) (v : ℚ),
      bucketAdd g 6 v = { g with lt7 := g.lt7 + v } ∧
      bucketAdd g 7 v = { g with d7to14 := g.d7to14 + v } ∧
      bucketAdd g 14 v = { g with d15to30 := g.d15to30 + v } ∧
      bucketAdd g 31 v = { g with gt30 := g.gt30 + v }) ∧
    (∀ (now : Int) (positions : List Position),
      0 < (positions.map _calculate_max_loss).sum →
      eSum (_calculate_expiration_distribution now positions) = 100) := by
  constructor
  · intro g v
    refine ⟨?_, ?_, ?_, ?_⟩ <;> simp [bucketAdd]
  · intro now ps hT
    have hT0 : (ps.map _calculate_max_loss).sum ≠ 0 := ne_of_gt hT
    have hg := eSum_foldl now ps ⟨0, 0, 0, 0⟩
    simp only [_calculate_expiration_distribution]
    rw [if_pos hT]
    simp only [eSum] at hg ⊢
    norm_num at hg
    field_simp
    linarith [hg]

/-- Witness for C3 on a single position whose total risk is 800. -/
theorem C3_expiration_distribution_witness :
    (bucketAdd ⟨1, 2, 3, 4⟩ 6 5
      = { (⟨1, 2, 3, 4⟩ : ExpirationGroups) with
            lt7 := (⟨1, 2, 3, 4⟩ : ExpirationGroups).lt7 + 5 }) ∧
    eSum (_calculate_expiration_distribution 0 [pCC]) = 100 :=
  ⟨(C3_expiration_distribution.1 ⟨1, 2, 3, 4⟩ 5).1,
   C3_expiration_distribution.2 0 [pCC] (by norm_num [_calculate_max_loss, pCC])⟩

/-- C7: when every position has non-negative entry price and positive
quantity and some position has nonzero notional, `sector_exposure` raises
no fault, its values sum to 100, and the value at each sector key — in
particular at `"Other"`, where every absent-sector position is bucketed —
is exactly the summed percentage contribution of the positions mapping to
that key. -/
theorem C7_sector_exposure_sums (positions : List Position)
    (hpos : ∀ p ∈ positions, 0 ≤ p.entry_price ∧ 0 < p.quantity)
    (hnz : ∃ p ∈ positions, p.entry_price * (p.quantity : ℚ) ≠ 0) :
    ∃ d, _calculate_sector_exposure positions = Except.ok d ∧
      (d.map Prod.snd).sum = 100 ∧
      ∀ k, dictGet d k =
        ((positions.filter (fun p => p.sector.getD "Other" = k)).map
          (fun p => p.entry_price * (p.quantity : ℚ) /
            ((positions.map (fun q => q.entry_price * (q.quantity : ℚ))).sum) * 100)).sum := by
  have hterm : ∀ x ∈ positions.map (fun q => q.entry_price * (q.quantity : ℚ)), 0 ≤ x := by
    intro x hx
    obtain ⟨p, hp, rfl⟩ := List.mem_map.mp hx
    obtain ⟨h1, h2⟩ := hpos p hp
    have hq : (0 : ℚ) < (p.quantity : ℚ) := by exact_mod_cast h2
    exact mul_nonneg h1 (le_of_lt hq)
  have htpos : 0 < (positions.map (fun q => q.entry_price * (q.quantity : ℚ))).sum := by
    obtain ⟨p, hp, hpnz⟩ := hnz
    have hmem : p.entry_price * (p.quantity : ℚ)
        ∈ positions.map (fun q => q.entry_price * (q.quantity : ℚ)) :=
      List.mem_map_of_mem _ hp
    have hle := List.single_le_sum hterm _ hmem
    have hgt : 0 < p.entry_price * (p.quantity : ℚ) :=
      lt_of_le_of_ne (hterm _ hmem) (Ne.symm hpnz)
    exact lt_of_lt_of_le hgt hle
  have ht0 : (positions.map (fun q => q.entry_price * (q.quantity : ℚ))).sum ≠ 0 :=
    ne_of_gt htpos
  refine ⟨sectorDict ((positions.map (fun q => q.entry_price * (q.quantity : ℚ))).sum)
      positions [], ?_, ?_, ?_⟩
  · simp only [_calculate_sector_exposure]
    exact sectorLoop_ok _ ht0 positions []
  · rw [sectorDict_snd_sum]
    simp only [List.map_nil, List.sum_nil, zero_add]
    rw [sum_map_div_mul_const, div_self ht0, one_mul]
  · intro k
    rw [sectorDict_get]
    simp [dictGet]

/-- Witness for C7 on the one-position `"Tech"` portfolio. -/
theorem C7_sector_exposure_sums_witness :
    ∃ d, _calculate_sector_exposure [pCC] = Except.ok d ∧
      (d.map Prod.snd).sum = 100 ∧
      ∀ k, dictGet d k =
        ((([pCC] : List Position).filter (fun p => p.sector.getD "Other" = k)).map
          (fun p => p.entry_price * (p.quantity : ℚ) /
            ((([pCC] : List Position).map
              (fun q => q.entry_price * (q.quantity : ℚ))).sum) * 100)).sum :=
  C7_sector_exposure_sums [pCC]
    (by
      intro p hp
      rw [List.mem_singleton] at hp
      subst hp
      constructor <;> norm_num [pCC])
    ⟨pCC, by simp, by norm_num [pCC]⟩

/-- Witness for C5 at a concrete evaluation time. -/
theorem C5_empty_portfolio_witness :
    ∃ r, get_portfolio_risk 0 [] = Except.ok r ∧
      r.totalRisk = 0 ∧
      r.sectorExposure = [] ∧
      ((r.riskByStrategy.map Prod.snd).sum = 0) ∧
      r.diversification = 0 :=
  C5_empty_portfolio 0
